import Mathlib

/-!
Verification of the task-tracking application (controllers/task_controller.py)
against its natural-language specification.

The controller handlers are embedded as pure functions from request data and
store state to a response descriptor plus the new store state.  The relational
store is a list of task records with an auto-increment counter.  Python
exceptions (an unparsable date raised by `datetime.strptime`) are embedded as
an `Except`-style error branch that produces the 500 response of the application.
-/

namespace Todo

/-- A calendar date, the embedding of the Python `date`/`datetime` types restricted to
the `%Y-%m-%d` fields used by the controller. -/
structure Date where
  year : Nat
  month : Nat
  day : Nat
deriving DecidableEq, Repr

/-- A task record: the `Task` model (models/task.py is the ORM class; its
columns are the table of spec §3).  `created_at` is an abstract timestamp. -/
structure Task where
  id : Nat
  title : String
  description : Option String
  due_date : Option Date
  created_at : Nat
  completed : Bool
deriving DecidableEq, Repr

/-- The relational store: the task table plus the auto-increment id counter. -/
structure Store where
  tasks : List Task
  nextId : Nat
deriving DecidableEq, Repr

/-- `Task.query.get(id)`: the first record with the given primary key. -/
def Store.get (s : Store) (id : Nat) : Option Task :=
  s.tasks.find? (fun t => t.id = id)

/-- A flash message (`flash(message, category)` in Flask). -/
structure Flash where
  message : String
  category : String
deriving DecidableEq, Repr

/-- The view context built by `task_list` and handed to `task_list.html`. -/
structure ListView where
  tasks : List Task
  filter_type : String
  sort_by : String
  total_tasks : Nat
  pending_count : Nat
  completed_count : Nat
deriving DecidableEq, Repr

/-- A serialized task record as produced by the `/api/tasks` endpoint. -/
structure TaskJson where
  id : Nat
  title : String
  description : Option String
  due_date : Option String
  created_at : String
  completed : Bool
deriving DecidableEq, Repr

/-- Response descriptors a handler can produce. -/
inductive Response where
  | redirect (endpoint : String)
  | renderForm (action : String) (task : Option Task)
  | renderDetail (task : Task)
  | notFound
  | internalError
deriving DecidableEq, Repr

/-- The HTTP status of each response descriptor: the Flask `redirect` is 302,
`render_template` is 200, and the registered error handlers return 404/500. -/
def Response.statusCode : Response → Nat
  | .redirect _ => 302
  | .renderForm _ _ => 200
  | .renderDetail _ => 200
  | .notFound => 404
  | .internalError => 500

/-- The result of running one handler: the flash messages it emitted, the
response it produced, and the store state after its commit (for the 500 path
the session is rolled back, so the store is unchanged). -/
structure HandlerResult where
  flashes : List Flash
  response : Response
  store : Store
deriving DecidableEq, Repr

/-- HTTP method of a request, for the handlers that branch on it. -/
inductive Method where
  | get
  | post
deriving DecidableEq, Repr

/-- Python truthiness of an optional string: `not x` is true exactly when the
form field is absent or the empty string. -/
def falsy : Option String → Bool
  | none => true
  | some s => s = ""

def isLeap (y : Nat) : Bool :=
  (y % 4 = 0 && y % 100 ≠ 0) || y % 400 = 0

def daysInMonth (y m : Nat) : Nat :=
  if m = 2 then (if isLeap y then 29 else 28)
  else if m = 4 || m = 6 || m = 9 || m = 11 then 30
  else 31

/-- Split a character sequence at every dash. -/
def splitDashes : List Char → List (List Char)
  | [] => [[]]
  | c :: cs =>
    let rest := splitDashes cs
    if c = '-' then [] :: rest
    else
      match rest with
      | [] => [[c]]
      | g :: gs => (c :: g) :: gs

/-- Decimal value of a nonempty all-digit character sequence. -/
def digitsToNat? (cs : List Char) : Option Nat :=
  if cs = [] then none
  else if cs.all (fun c => c.isDigit) then
    some (cs.foldl (fun n c => n * 10 + (c.toNat - 48)) 0)
  else none

/-- `datetime.strptime` with format `%Y-%m-%d` restricted to its date fields: three
dash-separated decimal components (year up to four digits, month and day up to
two) forming a valid calendar date; `none` is the raised `ValueError`. -/
def strptimeDate (s : String) : Option Date :=
  match splitDashes s.data with
  | [ys, ms, ds] =>
    match digitsToNat? ys, digitsToNat? ms, digitsToNat? ds with
    | some y, some m, some d =>
      if ys.length ≤ 4 && ms.length ≤ 2 && ds.length ≤ 2 &&
         1 ≤ y && 1 ≤ m && m ≤ 12 && 1 ≤ d && d ≤ daysInMonth y m
      then some ⟨y, m, d⟩ else none
    | _, _, _ => none
  | _ => none

/-- Line 81/138 of the controller:
due_date is strptime of due_date_str with format `%Y-%m-%d` if due_date_str is truthy else None.
A falsy field yields `None`; a truthy unparsable field raises (`.error`). -/
def parse_due_date (due_date_str : Option String) : Except Unit (Option Date) :=
  if falsy due_date_str then .ok none
  else
    match strptimeDate (due_date_str.getD "") with
    | some d => .ok (some d)
    | none => .error ()

/-- `GET /tasks` (`task_list`): reads the `filter`/`sort` query parameters but
renders a hard-coded empty list (`tasks = []`) with all counts zero; the store
is never consulted. -/
def task_list (args : List (String × String)) (s : Store) : ListView :=
  let filter_type := ((args.lookup "filter").getD "all")
  let sort_by := ((args.lookup "sort").getD "created")
  let tasks : List Task := []
  { tasks := tasks
    filter_type := filter_type
    sort_by := sort_by
    total_tasks := tasks.length
    pending_count := 0
    completed_count := 0 }

/-- `GET/POST /tasks/new` (`task_create`).  On POST: reads the form fields,
parses the due date (which can raise), rejects a falsy title with a flash and
a redirect back to the form, otherwise persists a new task and redirects to
the list. -/
def task_create (method : Method) (form : List (String × String)) (now : Nat)
    (s : Store) : HandlerResult :=
  match method with
  | .get => { flashes := [], response := .renderForm "Crear" none, store := s }
  | .post =>
    let title := form.lookup "title"
    let description := form.lookup "description"
    let due_date_str := form.lookup "due_date"
    match parse_due_date due_date_str with
    | .error _ => { flashes := [], response := .internalError, store := s }
    | .ok due_date =>
      if falsy title then
        { flashes := [⟨"El título es obligatorio.", "danger"⟩]
          response := .redirect "task_create"
          store := s }
      else
        let task : Task :=
          { id := s.nextId
            title := title.getD ""
            description := description
            due_date := due_date
            created_at := now
            completed := false }
        { flashes := [⟨"Tarea creada correctamente.", "success"⟩]
          response := .redirect "task_list"
          store := { tasks := s.tasks ++ [task], nextId := s.nextId + 1 } }

/-- `GET /tasks/<id>` (`task_detail`): `get_or_404` then render the record. -/
def task_detail (task_id : Nat) (s : Store) : HandlerResult :=
  match s.get task_id with
  | none => { flashes := [], response := .notFound, store := s }
  | some task => { flashes := [], response := .renderDetail task, store := s }

/-- `GET/POST /tasks/<id>/edit` (`task_edit`): `get_or_404`; on POST parses the
form (the due date parse can raise, before the title check), rejects a falsy
title with a flash and a redirect back to the edit form, otherwise overwrites
title/description/due_date and redirects to the detail page. -/
def task_edit (task_id : Nat) (method : Method) (form : List (String × String))
    (s : Store) : HandlerResult :=
  match s.get task_id with
  | none => { flashes := [], response := .notFound, store := s }
  | some task =>
    match method with
    | .get => { flashes := [], response := .renderForm "Editar" (some task), store := s }
    | .post =>
      let title := form.lookup "title"
      let description := form.lookup "description"
      let due_date_str := form.lookup "due_date"
      match parse_due_date due_date_str with
      | .error _ => { flashes := [], response := .internalError, store := s }
      | .ok due_date =>
        if falsy title then
          { flashes := [⟨"El título es obligatorio.", "danger"⟩]
            response := .redirect "task_edit"
            store := s }
        else
          let task' : Task :=
            { task with
                title := title.getD ""
                description := description
                due_date := due_date }
          { flashes := [⟨"Tarea actualizada correctamente.", "success"⟩]
            response := .redirect "task_detail"
            store := { s with
              tasks := s.tasks.map (fun t => if t.id = task_id then task' else t) } }

/-- `POST /tasks/<id>/delete` (`task_delete`): `get_or_404`, remove, commit,
redirect to the list. -/
def task_delete (task_id : Nat) (s : Store) : HandlerResult :=
  match s.get task_id with
  | none => { flashes := [], response := .notFound, store := s }
  | some _ =>
    { flashes := [⟨"Tarea eliminada.", "success"⟩]
      response := .redirect "task_list"
      store := { s with tasks := s.tasks.filter (fun t => ¬ t.id = task_id) } }

/-- Line 190 of the controller: `task.completed = not task.completed`. -/
def flipTask (t : Task) : Task :=
  { t with completed := !t.completed }

/-- The task table after the toggle of `task_id` is committed. -/
def toggleMap (task_id : Nat) (l : List Task) : List Task :=
  l.map (fun t => if t.id = task_id then flipTask t else t)

/-- `POST /tasks/<id>/toggle` (`task_toggle`): `get_or_404`, flip `completed`
on that record, commit, redirect to the list. -/
def task_toggle (task_id : Nat) (s : Store) : HandlerResult :=
  match s.get task_id with
  | none => { flashes := [], response := .notFound, store := s }
  | some _ =>
    { flashes := [⟨"Estado de la tarea actualizado.", "info"⟩]
      response := .redirect "task_list"
      store := { s with tasks := toggleMap task_id s.tasks } }

def pad2 (n : Nat) : String :=
  if n < 10 then "0" ++ toString n else toString n

def pad4 (n : Nat) : String :=
  if n < 10 then "000" ++ toString n
  else if n < 100 then "00" ++ toString n
  else if n < 1000 then "0" ++ toString n
  else toString n

/-- `date.isoformat()`: the `YYYY-MM-DD` rendering of a date. -/
def Date.isoformat (d : Date) : String :=
  pad4 d.year ++ "-" ++ pad2 d.month ++ "-" ++ pad2 d.day

/-- `datetime.isoformat()` on the abstract `created_at` timestamp: an
injective rendering into a string. -/
def tsIsoformat (n : Nat) : String :=
  toString n

/-- `GET /api/tasks` (`api_tasks`): `Task.query.all()` serialized field by
field; `due_date` is rendered with `isoformat` when present and `null` when
absent.  This is the `tasks` array of the JSON body. -/
def api_tasks (s : Store) : List TaskJson :=
  s.tasks.map (fun task =>
    { id := task.id
      title := task.title
      description := task.description
      due_date := task.due_date.map Date.isoformat
      created_at := tsIsoformat task.created_at
      completed := task.completed })

def Date.toKey (d : Date) : Nat :=
  d.year * 10000 + d.month * 100 + d.day

def dueKey (t : Task) : Nat :=
  match t.due_date with
  | none => 0
  | some d => d.toKey

/-- Modelled from the spec: the filter stage of the Task Store operation
`list_all(filter, sort)` of §4.1 (the store layer that would realize it,
models/task.py, is not present under src/): `pending`/`completed` select by
the `completed` flag, anything else (including `all`) selects everything. -/
def selectTasks (filt : String) (s : Store) : List Task :=
  if filt = "pending" then s.tasks.filter (fun t => t.completed = false)
  else if filt = "completed" then s.tasks.filter (fun t => t.completed = true)
  else s.tasks

/-- Modelled from the spec: the sort stage of `list_all` (§4.1), ascending by
due date, title or creation time; anything but `date`/`title` (including
`created`) sorts by creation time. -/
def sortTasks (srt : String) (l : List Task) : List Task :=
  if srt = "date" then List.insertionSort (fun a b => dueKey a ≤ dueKey b) l
  else if srt = "title" then List.insertionSort (fun a b => a.title ≤ b.title) l
  else List.insertionSort (fun a b => a.created_at ≤ b.created_at) l

/-- Modelled from the spec: the Task Store operation
`list_all(filter, sort) -> sequence of Task` of §4.1.  `filter` ∈
{all, pending, completed} selects by `completed`; `sort` ∈
{date, title, created} orders ascending by `due_date`, `title`, `created_at`;
unrecognized values default to `all`/`created`. -/
def list_all (filt srt : String) (s : Store) : List Task :=
  sortTasks srt (selectTasks filt s)

/-- A small sample task used to exercise the handlers on concrete inputs. -/
def exampleTask : Task :=
  { id := 1, title := "a", description := none, due_date := none
    created_at := 0, completed := false }

/-- A second sample task, completed and carrying a due date. -/
def exampleTask2 : Task :=
  { id := 2, title := "b", description := some "d", due_date := some ⟨2024, 1, 2⟩
    created_at := 5, completed := true }

/-- A store holding the single sample task. -/
def exampleStore : Store :=
  { tasks := [exampleTask], nextId := 2 }

/-- A store holding both sample tasks. -/
def exampleStore2 : Store :=
  { tasks := [exampleTask, exampleTask2], nextId := 3 }

/-- The empty store. -/
def store0 : Store :=
  { tasks := [], nextId := 1 }

/-- A submission with an empty title and an unparsable due date. -/
def badDateForm : List (String × String) :=
  [("title", ""), ("due_date", "zzz")]

/-- A submission with a valid title but an unparsable due date. -/
def unparsableForm : List (String × String) :=
  [("title", "a"), ("due_date", "zzz")]

/-- A submission whose only flaw is the empty title. -/
def emptyTitleForm : List (String × String) :=
  [("title", "")]

/-- A fully valid submission with a parsable due date. -/
def goodForm : List (String × String) :=
  [("title", "b"), ("due_date", "2024-01-02")]

end Todo

namespace Todo

/-! Helper lemmas about the store after each mutating handler. -/

lemma flipTask_id (t : Task) : (flipTask t).id = t.id := rfl

lemma find?_map_flip (id : Nat) (l : List Task) :
    (l.map (fun t => if t.id = id then flipTask t else t)).find? (fun t => t.id = id)
      = (l.find? (fun t => t.id = id)).map flipTask := by
  induction l with
  | nil => rfl
  | cons a l ih =>
    by_cases ha : a.id = id
    · simp [List.find?_cons, ha, flipTask]
    · simp [List.find?_cons, ha, ih]

lemma map_flip_flip (id : Nat) (l : List Task) :
    ((l.map (fun t => if t.id = id then flipTask t else t)).map
        (fun t => if t.id = id then flipTask t else t)) = l := by
  induction l with
  | nil => rfl
  | cons a l ih =>
    simp only [List.map_cons]
    by_cases ha : a.id = id
    · rw [if_pos ha]
      have h2 : (flipTask a).id = id := by rw [flipTask_id]; exact ha
      rw [if_pos h2]
      have h3 : flipTask (flipTask a) = a := by
        cases a
        simp [flipTask]
      rw [h3, ih]
    · rw [if_neg ha, if_neg ha, ih]

lemma find?_toggleMap (id : Nat) (l : List Task) :
    (toggleMap id l).find? (fun t => t.id = id)
      = (l.find? (fun t => t.id = id)).map flipTask :=
  find?_map_flip id l

lemma toggleMap_toggleMap (id : Nat) (l : List Task) :
    toggleMap id (toggleMap id l) = l :=
  map_flip_flip id l

lemma find?_filter_ne (id : Nat) (l : List Task) :
    (l.filter (fun t => ¬ t.id = id)).find? (fun t => t.id = id) = none := by
  rw [List.find?_eq_none]
  intro x hx
  have hmem : ¬ x.id = id := by simpa using (List.mem_filter.mp hx).2
  simpa using hmem

lemma find?_map_set (id : Nat) (c : Task) (hc : c.id = id) (l : List Task) (t : Task)
    (h : l.find? (fun u => u.id = id) = some t) :
    (l.map (fun u => if u.id = id then c else u)).find? (fun u => u.id = id) = some c := by
  induction l with
  | nil => simp at h
  | cons a l ih =>
    simp only [List.map_cons]
    by_cases ha : a.id = id
    · rw [if_pos ha]
      exact List.find?_cons_of_pos _ (by simp [hc])
    · rw [if_neg ha]
      rw [List.find?_cons_of_neg _ (by simp [ha])] at h
      rw [List.find?_cons_of_neg _ (by simp [ha])]
      exact ih h

/-! Claim theorems. -/

/-- C1 (code bug): the list handler never consults the store — for a store
holding one task it renders an empty sequence with all counts zero, while the
sequence the claim specifies (that of `list_all`) has length one. -/
theorem claim_C1_divergence :
    (task_list [] exampleStore).tasks = [] ∧
    (task_list [] exampleStore).total_tasks = 0 ∧
    (task_list [] exampleStore).pending_count = 0 ∧
    (task_list [] exampleStore).completed_count = 0 ∧
    (list_all "all" "created" exampleStore).length = 1 ∧
    ¬ (task_list [] exampleStore).total_tasks
        = (list_all "all" "created" exampleStore).length := by
  decide

/-- C4: toggling an existing task flips its `completed` flag, toggling twice
with no intervening operation restores the store to its state before the first
toggle, and toggling an absent id yields the NotFound response. -/
theorem claim_C4 (s : Store) (id : Nat) :
    (s.get id = none →
      (task_toggle id s).response = Response.notFound ∧ (task_toggle id s).store = s) ∧
    (∀ t : Task, s.get id = some t →
      ((task_toggle id s).store).get id = some (flipTask t) ∧
      (flipTask t).completed = !t.completed ∧
      ((task_toggle id ((task_toggle id s).store)).store) = s) := by
  constructor
  · intro h
    simp [task_toggle, h]
  · intro t ht
    have hstore : (task_toggle id s).store = { s with tasks := toggleMap id s.tasks } := by
      simp [task_toggle, ht]
    have hget : (Store.get { s with tasks := toggleMap id s.tasks } id)
        = some (flipTask t) := by
      unfold Store.get
      rw [find?_toggleMap]
      unfold Store.get at ht
      rw [ht]
      rfl
    refine ⟨by rw [hstore]; exact hget, rfl, ?_⟩
    rw [hstore]
    have hres : (task_toggle id { s with tasks := toggleMap id s.tasks }).store
        = { s with tasks := toggleMap id (toggleMap id s.tasks) } := by
      simp only [task_toggle, hget]
    rw [hres, toggleMap_toggleMap]

/-- Witness for C4 at a concrete store and id. -/
theorem claim_C4_witness :
    exampleStore.get 1 = some exampleTask ∧
    ((task_toggle 1 exampleStore).store).get 1 = some (flipTask exampleTask) ∧
    ((task_toggle 1 ((task_toggle 1 exampleStore).store)).store) = exampleStore :=
  ⟨by decide,
   ((claim_C4 exampleStore 1).2 exampleTask (by decide)).1,
   ((claim_C4 exampleStore 1).2 exampleTask (by decide)).2.2⟩

/-- C5: after a successful delete, detail on the same id yields NotFound with
a 404 status; detail on an absent id is 404 and on a present id renders the
full record; a repeated delete on the now-absent id is also NotFound. -/
theorem claim_C5 (s : Store) (id : Nat) :
    (∀ t : Task, s.get id = some t →
      (task_delete id s).response = Response.redirect "task_list" ∧
      ((task_delete id s).store).get id = none ∧
      (task_detail id ((task_delete id s).store)).response = Response.notFound ∧
      Response.statusCode ((task_detail id ((task_delete id s).store)).response) = 404 ∧
      (task_delete id ((task_delete id s).store)).response = Response.notFound) ∧
    (s.get id = none →
      (task_detail id s).response = Response.notFound ∧
      Response.statusCode ((task_detail id s).response) = 404 ∧
      (task_delete id s).response = Response.notFound) ∧
    (∀ t : Task, s.get id = some t →
      (task_detail id s).response = Response.renderDetail t) := by
  refine ⟨?_, ?_, ?_⟩
  · intro t ht
    have hstore : (task_delete id s).store =
        { s with tasks := s.tasks.filter (fun u => ¬ u.id = id) } := by
      simp [task_delete, ht]
    have hget : ((task_delete id s).store).get id = none := by
      rw [hstore]
      unfold Store.get
      exact find?_filter_ne id s.tasks
    refine ⟨by simp [task_delete, ht], hget, ?_, ?_, ?_⟩
    · simp [task_detail, hget]
    · simp [task_detail, hget, Response.statusCode]
    · have key : ∀ s2 : Store, s2.get id = none →
          (task_delete id s2).response = Response.notFound := by
        intro s2 h2
        simp [task_delete, h2]
      exact key _ hget
  · intro h
    exact ⟨by simp [task_detail, h],
      by simp [task_detail, h, Response.statusCode],
      by simp [task_delete, h]⟩
  · intro t ht
    simp [task_detail, ht]

/-- Witness for C5 at a concrete store and id. -/
theorem claim_C5_witness :
    exampleStore.get 1 = some exampleTask ∧
    (task_detail 1 ((task_delete 1 exampleStore).store)).response = Response.notFound :=
  ⟨by decide, (((claim_C5 exampleStore 1).1) exampleTask (by decide)).2.2.1⟩

/-- C10: an edit submission with an empty or absent title leaves the store
entirely unchanged — no field is modified before validation is checked. -/
theorem claim_C10 (id : Nat) (form : List (String × String)) (s : Store)
    (h : falsy (form.lookup "title") = true) :
    (task_edit id Method.post form s).store = s := by
  cases hg : s.get id with
  | none => simp [task_edit, hg]
  | some task =>
    cases hp : parse_due_date (form.lookup "due_date") with
    | error e => simp [task_edit, hg, hp]
    | ok dd => simp [task_edit, hg, hp, h]

/-- Witness for C10 at a concrete store and submission. -/
theorem claim_C10_witness :
    falsy (emptyTitleForm.lookup "title") = true ∧
    (task_edit 1 Method.post emptyTitleForm exampleStore).store = exampleStore :=
  ⟨by decide, claim_C10 1 emptyTitleForm exampleStore (by decide)⟩

lemma sortTasks_perm (srt : String) (l : List Task) :
    List.Perm (sortTasks srt l) l := by
  unfold sortTasks
  split_ifs <;> exact List.perm_insertionSort _ _

lemma mem_sortTasks (srt : String) (l : List Task) (t : Task) :
    t ∈ sortTasks srt l ↔ t ∈ l :=
  (sortTasks_perm srt l).mem_iff

/-- C2: `list_all` with filter `pending` returns exactly the tasks with
`completed = false`, with `completed` exactly those with `completed = true`;
the two are disjoint and together cover everything `list_all` returns for
`all`; unrecognized filter and sort values behave as `all` and `created`. -/
theorem claim_C2 (s : Store) (srt : String) :
    List.Perm (list_all "pending" srt s) (s.tasks.filter (fun t => t.completed = false)) ∧
    List.Perm (list_all "completed" srt s) (s.tasks.filter (fun t => t.completed = true)) ∧
    (∀ t : Task, t ∈ list_all "pending" srt s → t ∉ list_all "completed" srt s) ∧
    (∀ t : Task, t ∈ list_all "all" srt s →
      t ∈ list_all "pending" srt s ∨ t ∈ list_all "completed" srt s) ∧
    (∀ filt : String, ¬ filt = "pending" → ¬ filt = "completed" →
      list_all filt srt s = list_all "all" srt s) ∧
    (∀ filt sr : String, ¬ sr = "date" → ¬ sr = "title" →
      list_all filt sr s = list_all filt "created" s) := by
  have hsel_p : selectTasks "pending" s = s.tasks.filter (fun t => t.completed = false) := by
    simp [selectTasks]
  have hsel_c : selectTasks "completed" s = s.tasks.filter (fun t => t.completed = true) := by
    simp [selectTasks]
  have hsel_a : selectTasks "all" s = s.tasks := by
    simp [selectTasks]
  refine ⟨?_, ?_, ?_, ?_, ?_, ?_⟩
  · rw [list_all, hsel_p]
    exact sortTasks_perm _ _
  · rw [list_all, hsel_c]
    exact sortTasks_perm _ _
  · intro t hp hc
    rw [list_all, hsel_p, mem_sortTasks] at hp
    rw [list_all, hsel_c, mem_sortTasks] at hc
    have h1 : t.completed = false := by simpa using (List.mem_filter.mp hp).2
    have h2 : t.completed = true := by simpa using (List.mem_filter.mp hc).2
    rw [h1] at h2
    exact Bool.false_ne_true h2
  · intro t ht
    rw [list_all, hsel_a, mem_sortTasks] at ht
    cases hc : t.completed
    · left
      rw [list_all, hsel_p, mem_sortTasks]
      exact List.mem_filter.mpr ⟨ht, by simp [hc]⟩
    · right
      rw [list_all, hsel_c, mem_sortTasks]
      exact List.mem_filter.mpr ⟨ht, by simp [hc]⟩
  · intro filt h1 h2
    rw [list_all, list_all, hsel_a]
    congr 1
    simp [selectTasks, h1, h2]
  · intro filt sr h1 h2
    rw [list_all, list_all]
    unfold sortTasks
    simp [h1, h2]

/-- Witness for C2: the defaulting of an unrecognized filter at a concrete
store. -/
theorem claim_C2_witness :
    list_all "bogus" "created" exampleStore2 = list_all "all" "created" exampleStore2 :=
  (claim_C2 exampleStore2 "created").2.2.2.2.1 "bogus" (by decide) (by decide)

/-- C3 counterexample: a submission with empty title and unparsable due date
reaches the date parse first, so the request fails with 500 and no validation
message is flashed, refuting that a message is always signalled. -/
theorem claim_C3_counterexample :
    falsy (badDateForm.lookup "title") = true ∧
    (task_create Method.post badDateForm 0 store0).flashes = [] ∧
    (task_create Method.post badDateForm 0 store0).response = Response.internalError := by
  decide

/-- C3 (amended): a create submission with empty or absent title never adds a
record; when the due date field parses (or is absent) the validation message
is flashed and the user is redirected to the form; when the due date is
present and unparsable the request instead fails with 500 and flashes
nothing. -/
theorem claim_C3_amended (form : List (String × String)) (now : Nat) (s : Store)
    (h : falsy (form.lookup "title") = true) :
    (task_create Method.post form now s).store = s ∧
    (∀ dd : Option Date, parse_due_date (form.lookup "due_date") = Except.ok dd →
      (task_create Method.post form now s).flashes
          = [⟨"El título es obligatorio.", "danger"⟩] ∧
      (task_create Method.post form now s).response = Response.redirect "task_create") ∧
    (parse_due_date (form.lookup "due_date") = Except.error () →
      (task_create Method.post form now s).response = Response.internalError ∧
      (task_create Method.post form now s).flashes = []) := by
  cases hp : parse_due_date (form.lookup "due_date") with
  | error e =>
    refine ⟨by simp [task_create, hp], ?_, ?_⟩
    · intro dd hdd
      exact absurd hdd (by simp)
    · intro _
      exact ⟨by simp [task_create, hp], by simp [task_create, hp]⟩
  | ok dd =>
    refine ⟨by simp [task_create, hp, h], ?_, ?_⟩
    · intro dd2 hdd
      exact ⟨by simp [task_create, hp, h], by simp [task_create, hp, h]⟩
    · intro hbad
      exact absurd hbad (by simp)

/-- Witness for C3 (amended) at a concrete submission and store. -/
theorem claim_C3_amended_witness :
    falsy (emptyTitleForm.lookup "title") = true ∧
    (task_create Method.post emptyTitleForm 0 store0).store = store0 ∧
    (task_create Method.post emptyTitleForm 0 store0).flashes
        = [⟨"El título es obligatorio.", "danger"⟩] :=
  ⟨by decide,
   (claim_C3_amended emptyTitleForm 0 store0 (by decide)).1,
   ((claim_C3_amended emptyTitleForm 0 store0 (by decide)).2.1 none rfl).1⟩

/-- C7 counterexample: a create submission failing validation is answered with
a 302 redirect back to the form, not a 200 re-render of the form. -/
theorem claim_C7_counterexample :
    falsy (emptyTitleForm.lookup "title") = true ∧
    (task_create Method.post emptyTitleForm 0 store0).response
        = Response.redirect "task_create" ∧
    Response.statusCode ((task_create Method.post emptyTitleForm 0 store0).response) = 302 ∧
    ¬ Response.statusCode ((task_create Method.post emptyTitleForm 0 store0).response)
        = 200 := by
  decide

/-- C7 (amended): a create or edit submission that fails validation (empty
title, with a readable due date field) flashes the validation message and is
answered with a 302 redirect back to the respective form; NotFound is
surfaced as a 404 response on detail, edit, delete and toggle. -/
theorem claim_C7_amended (form : List (String × String)) (now : Nat) (s : Store) (id : Nat) :
    (∀ dd : Option Date, parse_due_date (form.lookup "due_date") = Except.ok dd →
      falsy (form.lookup "title") = true →
      ((task_create Method.post form now s).response = Response.redirect "task_create" ∧
       Response.statusCode ((task_create Method.post form now s).response) = 302 ∧
       (task_create Method.post form now s).flashes
           = [⟨"El título es obligatorio.", "danger"⟩]) ∧
      (∀ t : Task, s.get id = some t →
        (task_edit id Method.post form s).response = Response.redirect "task_edit" ∧
        Response.statusCode ((task_edit id Method.post form s).response) = 302 ∧
        (task_edit id Method.post form s).flashes
            = [⟨"El título es obligatorio.", "danger"⟩])) ∧
    (s.get id = none →
      Response.statusCode ((task_detail id s).response) = 404 ∧
      Response.statusCode ((task_edit id Method.get form s).response) = 404 ∧
      Response.statusCode ((task_delete id s).response) = 404 ∧
      Response.statusCode ((task_toggle id s).response) = 404) := by
  constructor
  · intro dd hp hT
    constructor
    · refine ⟨by simp [task_create, hp, hT], by simp [task_create, hp, hT, Response.statusCode], by simp [task_create, hp, hT]⟩
    · intro t ht
      refine ⟨by simp [task_edit, ht, hp, hT], by simp [task_edit, ht, hp, hT, Response.statusCode], by simp [task_edit, ht, hp, hT]⟩
  · intro h
    exact ⟨by simp [task_detail, h, Response.statusCode],
      by simp [task_edit, h, Response.statusCode],
      by simp [task_delete, h, Response.statusCode],
      by simp [task_toggle, h, Response.statusCode]⟩

/-- Witness for C7 (amended) at a concrete submission, store and id. -/
theorem claim_C7_amended_witness :
    (task_create Method.post emptyTitleForm 0 store0).response
        = Response.redirect "task_create" ∧
    Response.statusCode ((task_detail 9 store0).response) = 404 :=
  ⟨(((claim_C7_amended emptyTitleForm 0 store0 9).1 none rfl (by decide)).1).1,
   ((claim_C7_amended emptyTitleForm 0 store0 9).2 (by decide)).1⟩

/-- C6 counterexample: a valid-title submission with an unparsable due date
fails with 500 instead of storing a task with a null due date, refuting that
an unparsable date yields null without failing the request. -/
theorem claim_C6_counterexample :
    falsy (unparsableForm.lookup "title") = false ∧
    unparsableForm.lookup "due_date" = some "zzz" ∧
    strptimeDate "zzz" = none ∧
    (task_create Method.post unparsableForm 0 store0).response = Response.internalError ∧
    (task_create Method.post unparsableForm 0 store0).store = store0 := by
  decide

/-- C6 (amended): the due date field is parsed as an ISO `YYYY-MM-DD` string;
an absent or empty field yields a null due date and a parsable field the
parsed date, both in create and in edit; a present but unparsable field makes
the request fail with 500 and leaves the store unchanged. -/
theorem claim_C6_amended (form : List (String × String)) (now : Nat) (s : Store)
    (id : Nat) (t : Task) (hT : falsy (form.lookup "title") = false)
    (hget : s.get id = some t) :
    (falsy (form.lookup "due_date") = true →
      parse_due_date (form.lookup "due_date") = Except.ok none) ∧
    (∀ str : String, form.lookup "due_date" = some str → ¬ str = "" →
      parse_due_date (form.lookup "due_date")
        = (match strptimeDate str with
           | some d => Except.ok (some d)
           | none => Except.error ())) ∧
    (∀ dd : Option Date, parse_due_date (form.lookup "due_date") = Except.ok dd →
      (∃ u : Task, (task_create Method.post form now s).store.tasks.getLast? = some u ∧
        u.due_date = dd) ∧
      (∃ u : Task, ((task_edit id Method.post form s).store).get id = some u ∧
        u.due_date = dd)) ∧
    (parse_due_date (form.lookup "due_date") = Except.error () →
      (task_create Method.post form now s).response = Response.internalError ∧
      (task_create Method.post form now s).store = s ∧
      (task_edit id Method.post form s).response = Response.internalError ∧
      (task_edit id Method.post form s).store = s) := by
  have h1 : s.tasks.find? (fun u => u.id = id) = some t := hget
  have htid : t.id = id := by
    have h2 := List.find?_some h1
    simpa using h2
  refine ⟨?_, ?_, ?_, ?_⟩
  · intro hfal
    simp [parse_due_date, hfal]
  · intro str hstr hne
    simp [parse_due_date, hstr, falsy, hne]
  · intro dd hdd
    constructor
    · refine ⟨{ id := s.nextId, title := (form.lookup "title").getD "",
                description := form.lookup "description", due_date := dd,
                created_at := now, completed := false }, ?_, rfl⟩
      have hstore : (task_create Method.post form now s).store =
          { tasks := s.tasks ++
              [{ id := s.nextId, title := (form.lookup "title").getD "",
                 description := form.lookup "description", due_date := dd,
                 created_at := now, completed := false }],
            nextId := s.nextId + 1 } := by
        simp [task_create, hdd, hT]
      rw [hstore]
      exact List.getLast?_concat _
    · refine ⟨{ t with
          title := (form.lookup "title").getD "",
          description := form.lookup "description",
          due_date := dd }, ?_, rfl⟩
      have hstore : (task_edit id Method.post form s).store =
          { s with tasks := s.tasks.map (fun u => if u.id = id then
              { t with
                  title := (form.lookup "title").getD "",
                  description := form.lookup "description",
                  due_date := dd }
              else u) } := by
        simp [task_edit, hget, hdd, hT]
      rw [hstore]
      unfold Store.get
      exact find?_map_set id
        { t with
            title := (form.lookup "title").getD "",
            description := form.lookup "description",
            due_date := dd }
        htid s.tasks t h1
  · intro hbad
    exact ⟨by simp [task_create, hbad], by simp [task_create, hbad],
      by simp [task_edit, hget, hbad], by simp [task_edit, hget, hbad]⟩

/-- Witness for C6 (amended) at a concrete submission and store. -/
theorem claim_C6_amended_witness :
    parse_due_date (goodForm.lookup "due_date") = Except.ok (some ⟨2024, 1, 2⟩) ∧
    (∃ u : Task, (task_create Method.post goodForm 7 exampleStore).store.tasks.getLast?
        = some u ∧ u.due_date = some ⟨2024, 1, 2⟩) :=
  ⟨rfl,
   ((claim_C6_amended goodForm 7 exampleStore 1 exampleTask (by decide)
      (by decide)).2.2.1 (some ⟨2024, 1, 2⟩) rfl).1⟩

/-- C8: the JSON endpoint serializes every task with no filter applied: one
record per task, field by field, the creation timestamp as an ISO string, the
due date as an ISO string when present and null when absent. -/
theorem claim_C8 (s : Store) :
    (api_tasks s).length = s.tasks.length ∧
    (∀ i : Nat, ∀ t : Task, s.tasks[i]? = some t →
      ∃ r : TaskJson, (api_tasks s)[i]? = some r ∧
        r.id = t.id ∧ r.title = t.title ∧ r.description = t.description ∧
        r.created_at = tsIsoformat t.created_at ∧ r.completed = t.completed ∧
        (t.due_date = none → r.due_date = none) ∧
        (∀ d : Date, t.due_date = some d → r.due_date = some (Date.isoformat d))) := by
  constructor
  · simp [api_tasks]
  · intro i t hi
    refine ⟨{ id := t.id, title := t.title, description := t.description,
              due_date := t.due_date.map Date.isoformat,
              created_at := tsIsoformat t.created_at, completed := t.completed },
      ?_, rfl, rfl, rfl, rfl, rfl, ?_, ?_⟩
    · simp only [api_tasks]
      rw [List.getElem?_map, hi]
      rfl
    · intro hd
      simp [hd]
    · intro d hd
      simp [hd]

/-- Witness for C8 at a concrete two-task store. -/
theorem claim_C8_witness :
    (api_tasks exampleStore2).length = exampleStore2.tasks.length ∧
    (∃ r : TaskJson, (api_tasks exampleStore2)[1]? = some r ∧
      r.id = exampleTask2.id ∧ r.title = exampleTask2.title ∧
      r.description = exampleTask2.description ∧
      r.created_at = tsIsoformat exampleTask2.created_at ∧
      r.completed = exampleTask2.completed ∧
      (exampleTask2.due_date = none → r.due_date = none) ∧
      (∀ d : Date, exampleTask2.due_date = some d →
        r.due_date = some (Date.isoformat d))) :=
  ⟨(claim_C8 exampleStore2).1, (claim_C8 exampleStore2).2 1 exampleTask2 rfl⟩

/-- C9 (frame): toggle changes only the completed flag of the addressed task;
its other fields, the id counter, the table length and every other position
of the table are unchanged. -/
theorem claim_C9 (s : Store) (id : Nat) (t : Task) (h : s.get id = some t) :
    ((task_toggle id s).store).nextId = s.nextId ∧
    ((task_toggle id s).store).tasks.length = s.tasks.length ∧
    (∀ i : Nat, ∀ u : Task, s.tasks[i]? = some u → ¬ u.id = id →
      ((task_toggle id s).store).tasks[i]? = some u) ∧
    (∃ u : Task, ((task_toggle id s).store).get id = some u ∧
      u.id = t.id ∧ u.title = t.title ∧ u.description = t.description ∧
      u.due_date = t.due_date ∧ u.created_at = t.created_at ∧
      u.completed = !t.completed) := by
  have hstore : (task_toggle id s).store = { s with tasks := toggleMap id s.tasks } := by
    simp [task_toggle, h]
  refine ⟨by rw [hstore], ?_, ?_, ?_⟩
  · rw [hstore]
    simp [toggleMap]
  · intro i u hi hne
    rw [hstore]
    simp only [toggleMap]
    rw [List.getElem?_map, hi]
    simp [if_neg hne]
  · refine ⟨flipTask t, ?_, rfl, rfl, rfl, rfl, rfl, rfl⟩
    rw [hstore]
    unfold Store.get
    rw [find?_toggleMap]
    unfold Store.get at h
    rw [h]
    rfl

/-- Witness for C9 at a concrete two-task store. -/
theorem claim_C9_witness :
    exampleStore2.get 1 = some exampleTask ∧
    exampleStore2.tasks[1]? = some exampleTask2 ∧
    ((task_toggle 1 exampleStore2).store).tasks[1]? = some exampleTask2 :=
  ⟨by decide, by decide,
   (claim_C9 exampleStore2 1 exampleTask (by decide)).2.2.1 1 exampleTask2 rfl (by decide)⟩

end Todo
